import Mathlib

/-!
Verification development for the injector dataflow core of DL-Art-School
(`codes/models/steps/injectors.py`).

The embedding models:
* tensors as a shape `(tn, tc, th, tw)` together with a total data function
  `ℕ → ℕ → ℕ → ℕ → ℚ` (rationals stand in for floats; torch operations that
  the library guarantees shape-compatible are modelled on the left operand's
  shape);
* the shared state and the injector configuration as association lists from
  `String`, with Python `dict` lookup/assignment semantics (`slookup`,
  `dinsert`);
* Python exceptions as an `Err` sum type and every fallible operation in
  `Except Err`;
* `forward` in explicit state-passing style: it receives the state and
  returns the (possibly mutated) state together with the freshly built
  `new_state` dictionary, so that non-mutation is a provable property;
* external collaborators (sub-models, `torch.randn_like`,
  `torch.nn.functional.interpolate`) as oracle functions carried by `Env`.
-/

namespace DLAS

/-- A 4-dimensional rational tensor: shape fields plus a total data function.
Reads outside the shape return junk values; all theorems constrain indices to
the shape where it matters. -/
@[ext]
structure Tensor4 where
  tn : ℕ
  tc : ℕ
  th : ℕ
  tw : ℕ
  data : ℕ → ℕ → ℕ → ℕ → ℚ

/-- Elementwise tensor addition (`a + b` in torch for same-shaped operands);
the result carries the left operand's shape. -/
def tadd (a b : Tensor4) : Tensor4 :=
  ⟨a.tn, a.tc, a.th, a.tw, fun i j k l => a.data i j k l + b.data i j k l⟩

/-- Tensor-times-scalar (`t * s` in torch). -/
def tsmul (s : ℚ) (a : Tensor4) : Tensor4 :=
  ⟨a.tn, a.tc, a.th, a.tw, fun i j k l => a.data i j k l * s⟩

/-- Embedding of `torch.mean(t, dim=1, keepdim=True)`: averages the channel
dimension, keeping it with extent 1. -/
def meanDim1Keep (t : Tensor4) : Tensor4 :=
  ⟨t.tn, 1, t.th, t.tw,
    fun i _ k l => (∑ j ∈ Finset.range t.tc, t.data i j k l) / (t.tc : ℚ)⟩

/-- Embedding of `Tensor.repeat(a, b, c, d)`: tiles the tensor, multiplying
each extent; the data at an index reads the source modulo its extents. -/
def trepeat (t : Tensor4) (a b c d : ℕ) : Tensor4 :=
  ⟨t.tn * a, t.tc * b, t.th * c, t.tw * d,
    fun i j k l => t.data (i % t.tn) (j % t.tc) (k % t.th) (l % t.tw)⟩

/-- A value stored in the shared state: a tensor, a scalar, or a
list/tuple of values (the composite results a sub-model may return). -/
inductive Value where
  | tensor (t : Tensor4)
  | scalar (q : ℚ)
  | vseq (xs : List Value)

/-- Python exceptions raised by the injector layer. `keyError` covers dict
lookups (missing config fields, missing state keys, missing model names);
`assertionError` is the `assert isinstance(results, list/tuple)` failure;
`indexError` is `results[i]` past the end; `attributeError` is reading
`self.input` when `'in'` was absent at construction; `nameError` is a
reference to an undefined class; `typeError` covers operations on a value of
the wrong kind. -/
inductive Err where
  | keyError (k : String)
  | attributeError
  | assertionError
  | indexError
  | typeError
  | notImplementedError
  | nameError (s : String)
deriving DecidableEq

/-- A configuration value: a string, a number, a list of strings, or a
scheduler spec. A scheduler spec is modelled by the step-to-weight function
it denotes. -/
inductive OptValue where
  | str (s : String)
  | num (q : ℚ)
  | strList (ks : List String)
  | sched (f : ℕ → ℚ)

/-- Python `dict` lookup on an association list (keys are unique in any dict
built by `dinsert`, so first match is the binding). -/
def slookup {α : Type} : List (String × α) → String → Option α
  | [], _ => none
  | (k', v) :: rest, k => if k' = k then some v else slookup rest k

/-- The key list of an association-list dictionary. -/
def keysOf {α : Type} (d : List (String × α)) : List String :=
  d.map Prod.fst

/-- Python `dict` assignment `d[k] = v`: overwrite in place if the key
exists, else append at the end (dicts preserve insertion order). -/
def dinsert {α : Type} : List (String × α) → String → α → List (String × α)
  | [], k, v => [(k, v)]
  | (k', v') :: rest, k, v =>
    if k' = k then (k, v) :: rest else (k', v') :: dinsert rest k v

/-- Configuration field access `opt[k]`, raising `KeyError` when absent. -/
def optGetE (o : List (String × OptValue)) (k : String) : Except Err OptValue :=
  match slookup o k with
  | some v => Except.ok v
  | none => Except.error (Err.keyError k)

/-- State access `state[k]`, raising `KeyError` when absent. -/
def statGetE (st : List (String × Value)) (k : String) : Except Err Value :=
  match slookup st k with
  | some v => Except.ok v
  | none => Except.error (Err.keyError k)

/-- A configuration value used where a string key is needed; the state and
the environment's model tables are string-keyed, so any other kind of value
cannot name an entry. -/
def asKeyStr : OptValue → Except Err String
  | OptValue.str s => Except.ok s
  | _ => Except.error Err.typeError

/-- A state value used as a numeric scale. -/
def asScalarQ : Value → Except Err ℚ
  | Value.scalar q => Except.ok q
  | _ => Except.error Err.typeError

/-- A state value fed to a tensor operation. -/
def asTensorV : Value → Except Err Tensor4
  | Value.tensor t => Except.ok t
  | _ => Except.error Err.typeError

/-- A configuration value used as a number. -/
def asNumQ : OptValue → Except Err ℚ
  | OptValue.num q => Except.ok q
  | _ => Except.error Err.typeError

/-- Modelled from the spec: `get_scheduler_for_opt` (from
`data/weight_scheduler.py`, not present under `src/`) builds a deterministic
step-to-weight function from the scheduler spec; it is modelled as returning
the function the spec value denotes. -/
def asSchedF : OptValue → Except Err (ℕ → ℚ)
  | OptValue.sched f => Except.ok f
  | _ => Except.error Err.typeError

/-- The run-wide environment: named sub-model tables, the global step
counter, and oracles for the external collaborators. `randnLike` models the
standard-normal draw `torch.randn_like` performs for a given input tensor;
`interpolateFn` models `torch.nn.functional.interpolate`; `gradOp` models
`ImageGradientNoPadding` (from `models/archs/SPSR_arch.py`, not present under
`src/`), modelled from the spec as a fixed deterministic tensor transform. -/
structure Env where
  generators : String → Option (List Value → Value)
  discriminators : String → Option (List Value → Value)
  step : ℕ
  randnLike : Tensor4 → Tensor4
  interpolateFn : Tensor4 → ℚ → String → Tensor4
  gradOp : Tensor4 → Tensor4

/-- The concrete injector class, with construction-time payloads: the
scheduled-scalar variant holds its schedule function, the image-gradient
variant holds the gradient operator bound at construction. -/
inductive Variant where
  | generator
  | discriminator
  | scheduledScalar (sch : ℕ → ℚ)
  | imgGrad (fn : Tensor4 → Tensor4)
  | addNoise
  | greyscale
  | interpolate

/-- A constructed injector: its class, its configuration, and the `input` /
`output` attributes set by `Injector.__init__` (`input` is `none` when the
configuration had no `'in'` key, in which case reading it raises
`AttributeError`). -/
structure Injector where
  variant : Variant
  opt : List (String × OptValue)
  input : Option OptValue
  output : OptValue

/-- The body of `Injector.__init__`: reads `opt['in']` if present and the
required `opt['out']`, which raises `KeyError` when missing. -/
def baseInit (opt : List (String × OptValue)) :
    Except Err (Option OptValue × OptValue) :=
  match slookup opt "out" with
  | some outV => Except.ok (slookup opt "in", outV)
  | none => Except.error (Err.keyError "out")

/-- Construct a variant whose `__init__` only calls the base initializer. -/
def mkInjector (v : Variant) (opt : List (String × OptValue)) :
    Except Err Injector :=
  match baseInit opt with
  | Except.error e => Except.error e
  | Except.ok (inp, outV) => Except.ok ⟨v, opt, inp, outV⟩

/-- The factory `create_injector`: dispatch on the `'type'` string. The
`'imageflow'` tag is dispatched but its class `ImageFlowInjector` is never
defined (its import is commented out), so that branch raises `NameError`
before any constructor runs; any other unrecognized value raises
`NotImplementedError`. -/
def create_injector (opt : List (String × OptValue)) (env : Env) :
    Except Err Injector :=
  match slookup opt "type" with
  | none => Except.error (Err.keyError "type")
  | some tv =>
    match tv with
    | OptValue.str s =>
      if s = "generator" then mkInjector Variant.generator opt
      else if s = "discriminator" then mkInjector Variant.discriminator opt
      else if s = "scheduled_scalar" then
        match baseInit opt with
        | Except.error e => Except.error e
        | Except.ok (inp, outV) =>
          match optGetE opt "scheduler" with
          | Except.error e => Except.error e
          | Except.ok schV =>
            match asSchedF schV with
            | Except.error e => Except.error e
            | Except.ok f => Except.ok ⟨Variant.scheduledScalar f, opt, inp, outV⟩
      else if s = "img_grad" then
        match baseInit opt with
        | Except.error e => Except.error e
        | Except.ok (inp, outV) => Except.ok ⟨Variant.imgGrad env.gradOp, opt, inp, outV⟩
      else if s = "add_noise" then mkInjector Variant.addNoise opt
      else if s = "greyscale" then mkInjector Variant.greyscale opt
      else if s = "interpolate" then mkInjector Variant.interpolate opt
      else if s = "imageflow" then Except.error (Err.nameError "ImageFlowInjector")
      else Except.error Err.notImplementedError
    | _ => Except.error Err.notImplementedError

/-- The eight `'type'` strings the factory's dispatch chain tests for. -/
def dispatchTags : List String :=
  ["generator", "discriminator", "scheduled_scalar", "img_grad",
   "add_noise", "greyscale", "interpolate", "imageflow"]

/-- Gather `[state[i] for i in self.input]`: reads each listed key in order,
raising `KeyError` at the first absent one. -/
def gatherParams (st : List (String × Value)) :
    List String → Except Err (List Value)
  | [] => Except.ok []
  | k :: ks =>
    match statGetE st k with
    | Except.error e => Except.error e
    | Except.ok v =>
      match gatherParams st ks with
      | Except.error e => Except.error e
      | Except.ok vs => Except.ok (v :: vs)

/-- Invoke the sub-model: `gen(*params)` when `self.input` is a list,
`gen(state[self.input])` when it is a single key; reading an unset
`self.input` raises `AttributeError`. -/
def callModel (gen : List Value → Value) (inp : Option OptValue)
    (st : List (String × Value)) : Except Err Value :=
  match inp with
  | none => Except.error Err.attributeError
  | some (OptValue.strList ks) =>
    match gatherParams st ks with
    | Except.error e => Except.error e
    | Except.ok params => Except.ok (gen params)
  | some (OptValue.str k) =>
    match statGetE st k with
    | Except.error e => Except.error e
    | Except.ok v => Except.ok (gen [v])
  | some _ => Except.error Err.typeError

/-- The loop `for i, k in enumerate(self.output): new_state[k] = results[i]`
in lockstep form: when the output keys outlast the results, `results[i]`
raises `IndexError`. -/
def writeOuts (acc : List (String × Value)) :
    List String → List Value → Except Err (List (String × Value))
  | [], _ => Except.ok acc
  | _ :: _, [] => Except.error Err.indexError
  | k :: ks, r :: rs => writeOuts (dinsert acc k r) ks rs

/-- Build `new_state` from the model result: a list `output` asserts the
result is a list/tuple and unpacks positionally; a single key stores the
whole result verbatim. -/
def packOut (outV : OptValue) (results : Value) :
    Except Err (List (String × Value)) :=
  match outV with
  | OptValue.strList ks =>
    match results with
    | Value.vseq rs => writeOuts [] ks rs
    | _ => Except.error Err.assertionError
  | OptValue.str k => Except.ok [(k, results)]
  | _ => Except.error Err.typeError

/-- The shared body of `ImageGeneratorInjector.forward` and
`DiscriminatorInjector.forward`: look the sub-model name up in the
configuration, fetch it from the given environment table, call it on the
gathered inputs, and pack the result into `new_state`. -/
def invokeModel (tbl : String → Option (List Value → Value)) (roleKey : String)
    (inj : Injector) (st : List (String × Value)) :
    Except Err (List (String × Value) × List (String × Value)) :=
  match optGetE inj.opt roleKey with
  | Except.error e => Except.error e
  | Except.ok nameV =>
    match asKeyStr nameV with
    | Except.error e => Except.error e
    | Except.ok name =>
      match tbl name with
      | none => Except.error (Err.keyError name)
      | some gen =>
        match callModel gen inj.input st with
        | Except.error e => Except.error e
        | Except.ok results =>
          match packOut inj.output results with
          | Except.error e => Except.error e
          | Except.ok new => Except.ok (st, new)

/-- Resolve the polymorphic `'scale'` of `AddNoiseInjector`: a string names
a state key whose value supplies the scale, a number is used literally. -/
def resolveScale (scV : OptValue) (st : List (String × Value)) : Except Err ℚ :=
  match scV with
  | OptValue.str k =>
    match statGetE st k with
    | Except.error e => Except.error e
    | Except.ok v => asScalarQ v
  | OptValue.num q => Except.ok q
  | _ => Except.error Err.typeError

/-- The `forward` of every concrete variant, in explicit state-passing
style: the first component of a successful result is the state after the
call (no variant ever writes into it) and the second is the freshly built
`new_state` dictionary of produced keys. -/
def forward (inj : Injector) (env : Env) (st : List (String × Value)) :
    Except Err (List (String × Value) × List (String × Value)) :=
  match inj.variant with
  | Variant.generator => invokeModel env.generators "generator" inj st
  | Variant.discriminator => invokeModel env.discriminators "discriminator" inj st
  | Variant.scheduledScalar sch =>
    match optGetE inj.opt "out" with
    | Except.error e => Except.error e
    | Except.ok outV =>
      match asKeyStr outV with
      | Except.error e => Except.error e
      | Except.ok o => Except.ok (st, [(o, Value.scalar (sch env.step))])
  | Variant.imgGrad fn =>
    match optGetE inj.opt "out" with
    | Except.error e => Except.error e
    | Except.ok outV =>
      match asKeyStr outV with
      | Except.error e => Except.error e
      | Except.ok o =>
        match optGetE inj.opt "in" with
        | Except.error e => Except.error e
        | Except.ok inV =>
          match asKeyStr inV with
          | Except.error e => Except.error e
          | Except.ok ik =>
            match statGetE st ik with
            | Except.error e => Except.error e
            | Except.ok v =>
              match asTensorV v with
              | Except.error e => Except.error e
              | Except.ok x => Except.ok (st, [(o, Value.tensor (fn x))])
  | Variant.addNoise =>
    match optGetE inj.opt "scale" with
    | Except.error e => Except.error e
    | Except.ok scV =>
      match resolveScale scV st with
      | Except.error e => Except.error e
      | Except.ok s =>
        match optGetE inj.opt "in" with
        | Except.error e => Except.error e
        | Except.ok inV =>
          match asKeyStr inV with
          | Except.error e => Except.error e
          | Except.ok ik =>
            match statGetE st ik with
            | Except.error e => Except.error e
            | Except.ok v =>
              match asTensorV v with
              | Except.error e => Except.error e
              | Except.ok x =>
                match optGetE inj.opt "out" with
                | Except.error e => Except.error e
                | Except.ok outV =>
                  match asKeyStr outV with
                  | Except.error e => Except.error e
                  | Except.ok o =>
                    Except.ok (st,
                      [(o, Value.tensor (tadd x (tsmul s (env.randnLike x))))])
  | Variant.greyscale =>
    match optGetE inj.opt "in" with
    | Except.error e => Except.error e
    | Except.ok inV =>
      match asKeyStr inV with
      | Except.error e => Except.error e
      | Except.ok ik =>
        match statGetE st ik with
        | Except.error e => Except.error e
        | Except.ok v =>
          match asTensorV v with
          | Except.error e => Except.error e
          | Except.ok x =>
            match optGetE inj.opt "out" with
            | Except.error e => Except.error e
            | Except.ok outV =>
              match asKeyStr outV with
              | Except.error e => Except.error e
              | Except.ok o =>
                Except.ok (st,
                  [(o, Value.tensor (trepeat (meanDim1Keep x) 1 3 1 1))])
  | Variant.interpolate =>
    match optGetE inj.opt "in" with
    | Except.error e => Except.error e
    | Except.ok inV =>
      match asKeyStr inV with
      | Except.error e => Except.error e
      | Except.ok ik =>
        match statGetE st ik with
        | Except.error e => Except.error e
        | Except.ok v =>
          match asTensorV v with
          | Except.error e => Except.error e
          | Except.ok x =>
            match optGetE inj.opt "scale_factor" with
            | Except.error e => Except.error e
            | Except.ok sfV =>
              match asNumQ sfV with
              | Except.error e => Except.error e
              | Except.ok sf =>
                match optGetE inj.opt "mode" with
                | Except.error e => Except.error e
                | Except.ok mV =>
                  match asKeyStr mV with
                  | Except.error e => Except.error e
                  | Except.ok mode =>
                    match optGetE inj.opt "out" with
                    | Except.error e => Except.error e
                    | Except.ok outV =>
                      match asKeyStr outV with
                      | Except.error e => Except.error e
                      | Except.ok o =>
                        Except.ok (st,
                          [(o, Value.tensor (env.interpolateFn x sf mode))])

/-- A tensor of zeros with the same shape as the given one (used to model a
zero random draw from `torch.randn_like`). -/
def zerosLike (t : Tensor4) : Tensor4 :=
  ⟨t.tn, t.tc, t.th, t.tw, fun _ _ _ _ => 0⟩

/-- A sample sub-model returning a 3-element tuple, for concrete runs. -/
def gen3 : List Value → Value :=
  fun _ => Value.vseq [Value.scalar 1, Value.scalar 2, Value.scalar 3]

/-- A concrete environment for concrete runs: one generator named `g`
returning a 3-tuple, a zero random draw, identity oracles, step 0. -/
def env0 : Env :=
  ⟨fun n => if n = "g" then some gen3 else none,
   fun _ => none, 0, zerosLike, fun t _ _ => t, fun t => t⟩

/-- A concrete input tensor of shape `(1, 2, 1, 1)` with channel values
`2` and `4` (so the channel mean is `3`). -/
def x0 : Tensor4 :=
  ⟨1, 2, 1, 1, fun _ j _ _ => if j = 0 then 2 else 4⟩

/-- A concrete state binding `x` to a scalar. -/
def st0 : List (String × Value) := [("x", Value.scalar 5)]

/-- A concrete state binding `x` to the tensor `x0`. -/
def stX : List (String × Value) := [("x", Value.tensor x0)]

/-- The key-set a returned mapping must have: the single `out` key, or the
members of the `out` list. -/
def keyMem : OptValue → String → Prop
  | OptValue.str k, x => x = k
  | OptValue.strList ks, x => x ∈ ks
  | _, _ => False

theorem keysOf_nil {α : Type} : keysOf ([] : List (String × α)) = [] := rfl

theorem keysOf_cons {α : Type} (k : String) (v : α) (d : List (String × α)) :
    keysOf ((k, v) :: d) = k :: keysOf d := rfl

theorem mem_keysOf_dinsert {α : Type} (d : List (String × α)) (k : String)
    (v : α) (x : String) :
    x ∈ keysOf (dinsert d k v) ↔ x ∈ keysOf d ∨ x = k := by
  induction d with
  | nil => simp [dinsert, keysOf]
  | cons p rest ih =>
    obtain ⟨k', v'⟩ := p
    by_cases hk : k' = k
    · have hd : dinsert ((k', v') :: rest) k v = (k, v) :: rest := by
        simp [dinsert, hk]
      rw [hd, hk]
      simp only [keysOf_cons, List.mem_cons]
      tauto
    · have hd : dinsert ((k', v') :: rest) k v = (k', v') :: dinsert rest k v := by
        simp [dinsert, hk]
      rw [hd]
      simp only [keysOf_cons, List.mem_cons, ih]
      tauto

theorem writeOuts_ok_keys :
    ∀ (ks : List String) (rs : List Value) (acc d : List (String × Value)),
      writeOuts acc ks rs = Except.ok d →
      ∀ x, x ∈ keysOf d ↔ x ∈ keysOf acc ∨ x ∈ ks := by
  intro ks
  induction ks with
  | nil =>
    intro rs acc d h x
    cases h
    simp
  | cons k ks ih =>
    intro rs acc d h x
    cases rs with
    | nil => cases h
    | cons r rs =>
      have := ih rs (dinsert acc k r) d h x
      rw [this, mem_keysOf_dinsert]
      simp only [List.mem_cons]
      tauto

theorem writeOuts_short :
    ∀ (ks : List String) (rs : List Value) (acc : List (String × Value)),
      rs.length < ks.length → writeOuts acc ks rs = Except.error Err.indexError := by
  intro ks
  induction ks with
  | nil => intro rs acc h; simp at h
  | cons k ks ih =>
    intro rs acc h
    cases rs with
    | nil => rfl
    | cons r rs =>
      simp only [List.length_cons, Nat.succ_lt_succ_iff] at h
      exact ih rs (dinsert acc k r) h

theorem writeOuts_long :
    ∀ (ks : List String) (rs : List Value) (acc : List (String × Value)),
      ks.length ≤ rs.length → ∃ d, writeOuts acc ks rs = Except.ok d := by
  intro ks
  induction ks with
  | nil => intro rs acc _; exact ⟨acc, rfl⟩
  | cons k ks ih =>
    intro rs acc h
    cases rs with
    | nil => simp at h
    | cons r rs =>
      simp only [List.length_cons, Nat.succ_le_succ_iff] at h
      exact ih rs (dinsert acc k r) h

theorem packOut_ok_keys (outV : OptValue) (results : Value)
    (new : List (String × Value)) (h : packOut outV results = Except.ok new) :
    ∀ x, x ∈ keysOf new ↔ keyMem outV x := by
  intro x
  cases outV with
  | str k =>
    cases h
    simp [keysOf, keyMem]
  | strList ks =>
    cases results with
    | vseq rs =>
      simp only [packOut] at h
      rw [writeOuts_ok_keys ks rs [] new h x]
      simp [keysOf, keyMem]
    | tensor t => cases h
    | scalar q => cases h
  | num q => cases h
  | sched f => cases h

theorem invokeModel_ok (tbl : String → Option (List Value → Value))
    (roleKey : String) (inj : Injector) (st st' new : List (String × Value))
    (h : invokeModel tbl roleKey inj st = Except.ok (st', new)) :
    st' = st ∧ ∃ results, packOut inj.output results = Except.ok new := by
  unfold invokeModel at h
  split at h
  · cases h
  · split at h
    · cases h
    · split at h
      · cases h
      · split at h
        · cases h
        · split at h
          · cases h
          · rename_i hpack
            cases h
            exact ⟨rfl, _, hpack⟩

theorem forward_state (inj : Injector) (env : Env)
    (st st' new : List (String × Value))
    (h : forward inj env st = Except.ok (st', new)) : st' = st := by
  unfold forward at h
  split at h
  · exact (invokeModel_ok env.generators "generator" inj st st' new h).1
  · exact (invokeModel_ok env.discriminators "discriminator" inj st st' new h).1
  all_goals
    repeat' first
      | (cases h <;> rfl)
      | split at h

theorem optGetE_ok (o : List (String × OptValue)) (k : String) (v : OptValue)
    (h : optGetE o k = Except.ok v) : slookup o k = some v := by
  unfold optGetE at h
  cases hl : slookup o k with
  | none => simp only [hl] at h; cases h
  | some w => simp only [hl] at h; cases h; rfl

theorem optGetE_of (o : List (String × OptValue)) (k : String) (v : OptValue)
    (h : slookup o k = some v) : optGetE o k = Except.ok v := by
  simp [optGetE, h]

theorem statGetE_ok (st : List (String × Value)) (k : String) (v : Value)
    (h : statGetE st k = Except.ok v) : slookup st k = some v := by
  unfold statGetE at h
  cases hl : slookup st k with
  | none => simp only [hl] at h; cases h
  | some w => simp only [hl] at h; cases h; rfl

theorem statGetE_of (st : List (String × Value)) (k : String) (v : Value)
    (h : slookup st k = some v) : statGetE st k = Except.ok v := by
  simp [statGetE, h]

theorem statGetE_none (st : List (String × Value)) (k : String)
    (h : slookup st k = none) : statGetE st k = Except.error (Err.keyError k) := by
  simp [statGetE, h]

theorem asKeyStr_ok (v : OptValue) (s : String) (h : asKeyStr v = Except.ok s) :
    v = OptValue.str s := by
  cases v with
  | str t => cases h; rfl
  | num q => cases h
  | strList ks => cases h
  | sched f => cases h

theorem asScalarQ_ok (v : Value) (q : ℚ) (h : asScalarQ v = Except.ok q) :
    v = Value.scalar q := by
  cases v with
  | scalar t => cases h; rfl
  | tensor t => cases h
  | vseq xs => cases h

theorem asTensorV_ok (v : Value) (t : Tensor4) (h : asTensorV v = Except.ok t) :
    v = Value.tensor t := by
  cases v with
  | tensor u => cases h; rfl
  | scalar q => cases h
  | vseq xs => cases h

theorem schedScalar_ok (sch : ℕ → ℚ) (opt : List (String × OptValue))
    (inp : Option OptValue) (outV : OptValue) (env : Env)
    (st st' new : List (String × Value))
    (h : forward ⟨Variant.scheduledScalar sch, opt, inp, outV⟩ env st =
      Except.ok (st', new)) :
    st' = st ∧ ∃ o, slookup opt "out" = some (OptValue.str o) ∧
      new = [(o, Value.scalar (sch env.step))] := by
  simp only [forward] at h
  cases h1 : optGetE opt "out" with
  | error e => simp only [h1] at h; cases h
  | ok ov =>
    simp only [h1] at h
    cases h2 : asKeyStr ov with
    | error e => simp only [h2] at h; cases h
    | ok o =>
      simp only [h2] at h
      cases h
      refine ⟨rfl, o, ?_, rfl⟩
      rw [← asKeyStr_ok ov o h2]
      exact optGetE_ok opt "out" ov h1

theorem imgGrad_ok (fn : Tensor4 → Tensor4) (opt : List (String × OptValue))
    (inp : Option OptValue) (outV : OptValue) (env : Env)
    (st st' new : List (String × Value))
    (h : forward ⟨Variant.imgGrad fn, opt, inp, outV⟩ env st =
      Except.ok (st', new)) :
    st' = st ∧ ∃ o ik x, slookup opt "out" = some (OptValue.str o) ∧
      slookup opt "in" = some (OptValue.str ik) ∧
      slookup st ik = some (Value.tensor x) ∧
      new = [(o, Value.tensor (fn x))] := by
  simp only [forward] at h
  cases h1 : optGetE opt "out" with
  | error e => simp only [h1] at h; cases h
  | ok ov =>
    simp only [h1] at h
    cases h2 : asKeyStr ov with
    | error e => simp only [h2] at h; cases h
    | ok o =>
      simp only [h2] at h
      cases h3 : optGetE opt "in" with
      | error e => simp only [h3] at h; cases h
      | ok iv =>
        simp only [h3] at h
        cases h4 : asKeyStr iv with
        | error e => simp only [h4] at h; cases h
        | ok ik =>
          simp only [h4] at h
          cases h5 : statGetE st ik with
          | error e => simp only [h5] at h; cases h
          | ok v =>
            simp only [h5] at h
            cases h6 : asTensorV v with
            | error e => simp only [h6] at h; cases h
            | ok x =>
              simp only [h6] at h
              cases h
              refine ⟨rfl, o, ik, x, ?_, ?_, ?_, rfl⟩
              · rw [← asKeyStr_ok ov o h2]; exact optGetE_ok opt "out" ov h1
              · rw [← asKeyStr_ok iv ik h4]; exact optGetE_ok opt "in" iv h3
              · rw [← asTensorV_ok v x h6]; exact statGetE_ok st ik v h5

theorem addNoise_ok (opt : List (String × OptValue))
    (inp : Option OptValue) (outV : OptValue) (env : Env)
    (st st' new : List (String × Value))
    (h : forward ⟨Variant.addNoise, opt, inp, outV⟩ env st =
      Except.ok (st', new)) :
    st' = st ∧ ∃ o ik x scV s, slookup opt "scale" = some scV ∧
      resolveScale scV st = Except.ok s ∧
      slookup opt "in" = some (OptValue.str ik) ∧
      slookup st ik = some (Value.tensor x) ∧
      slookup opt "out" = some (OptValue.str o) ∧
      new = [(o, Value.tensor (tadd x (tsmul s (env.randnLike x))))] := by
  simp only [forward] at h
  cases h0 : optGetE opt "scale" with
  | error e => simp only [h0] at h; cases h
  | ok scV =>
    simp only [h0] at h
    cases hs : resolveScale scV st with
    | error e => simp only [hs] at h; cases h
    | ok s =>
      simp only [hs] at h
      cases h3 : optGetE opt "in" with
      | error e => simp only [h3] at h; cases h
      | ok iv =>
        simp only [h3] at h
        cases h4 : asKeyStr iv with
        | error e => simp only [h4] at h; cases h
        | ok ik =>
          simp only [h4] at h
          cases h5 : statGetE st ik with
          | error e => simp only [h5] at h; cases h
          | ok v =>
            simp only [h5] at h
            cases h6 : asTensorV v with
            | error e => simp only [h6] at h; cases h
            | ok x =>
              simp only [h6] at h
              cases h1 : optGetE opt "out" with
              | error e => simp only [h1] at h; cases h
              | ok ov =>
                simp only [h1] at h
                cases h2 : asKeyStr ov with
                | error e => simp only [h2] at h; cases h
                | ok o =>
                  simp only [h2] at h
                  cases h
                  refine ⟨rfl, o, ik, x, scV, s, ?_, hs, ?_, ?_, ?_, rfl⟩
                  · exact optGetE_ok opt "scale" scV h0
                  · rw [← asKeyStr_ok iv ik h4]; exact optGetE_ok opt "in" iv h3
                  · rw [← asTensorV_ok v x h6]; exact statGetE_ok st ik v h5
                  · rw [← asKeyStr_ok ov o h2]; exact optGetE_ok opt "out" ov h1

theorem greyscale_ok (opt : List (String × OptValue))
    (inp : Option OptValue) (outV : OptValue) (env : Env)
    (st st' new : List (String × Value))
    (h : forward ⟨Variant.greyscale, opt, inp, outV⟩ env st =
      Except.ok (st', new)) :
    st' = st ∧ ∃ o ik x, slookup opt "in" = some (OptValue.str ik) ∧
      slookup st ik = some (Value.tensor x) ∧
      slookup opt "out" = some (OptValue.str o) ∧
      new = [(o, Value.tensor (trepeat (meanDim1Keep x) 1 3 1 1))] := by
  simp only [forward] at h
  cases h3 : optGetE opt "in" with
  | error e => simp only [h3] at h; cases h
  | ok iv =>
    simp only [h3] at h
    cases h4 : asKeyStr iv with
    | error e => simp only [h4] at h; cases h
    | ok ik =>
      simp only [h4] at h
      cases h5 : statGetE st ik with
      | error e => simp only [h5] at h; cases h
      | ok v =>
        simp only [h5] at h
        cases h6 : asTensorV v with
        | error e => simp only [h6] at h; cases h
        | ok x =>
          simp only [h6] at h
          cases h1 : optGetE opt "out" with
          | error e => simp only [h1] at h; cases h
          | ok ov =>
            simp only [h1] at h
            cases h2 : asKeyStr ov with
            | error e => simp only [h2] at h; cases h
            | ok o =>
              simp only [h2] at h
              cases h
              refine ⟨rfl, o, ik, x, ?_, ?_, ?_, rfl⟩
              · rw [← asKeyStr_ok iv ik h4]; exact optGetE_ok opt "in" iv h3
              · rw [← asTensorV_ok v x h6]; exact statGetE_ok st ik v h5
              · rw [← asKeyStr_ok ov o h2]; exact optGetE_ok opt "out" ov h1

theorem interpolate_ok (opt : List (String × OptValue))
    (inp : Option OptValue) (outV : OptValue) (env : Env)
    (st st' new : List (String × Value))
    (h : forward ⟨Variant.interpolate, opt, inp, outV⟩ env st =
      Except.ok (st', new)) :
    st' = st ∧ ∃ o ik x sf mode, slookup opt "in" = some (OptValue.str ik) ∧
      slookup st ik = some (Value.tensor x) ∧
      slookup opt "scale_factor" = some (OptValue.num sf) ∧
      slookup opt "mode" = some (OptValue.str mode) ∧
      slookup opt "out" = some (OptValue.str o) ∧
      new = [(o, Value.tensor (env.interpolateFn x sf mode))] := by
  simp only [forward] at h
  cases h3 : optGetE opt "in" with
  | error e => simp only [h3] at h; cases h
  | ok iv =>
    simp only [h3] at h
    cases h4 : asKeyStr iv with
    | error e => simp only [h4] at h; cases h
    | ok ik =>
      simp only [h4] at h
      cases h5 : statGetE st ik with
      | error e => simp only [h5] at h; cases h
      | ok v =>
        simp only [h5] at h
        cases h6 : asTensorV v with
        | error e => simp only [h6] at h; cases h
        | ok x =>
          simp only [h6] at h
          cases h7 : optGetE opt "scale_factor" with
          | error e => simp only [h7] at h; cases h
          | ok sfV =>
            simp only [h7] at h
            cases h8 : asNumQ sfV with
            | error e => simp only [h8] at h; cases h
            | ok sf =>
              simp only [h8] at h
              cases h9 : optGetE opt "mode" with
              | error e => simp only [h9] at h; cases h
              | ok mV =>
                simp only [h9] at h
                cases h10 : asKeyStr mV with
                | error e => simp only [h10] at h; cases h
                | ok mode =>
                  simp only [h10] at h
                  cases h1 : optGetE opt "out" with
                  | error e => simp only [h1] at h; cases h
                  | ok ov =>
                    simp only [h1] at h
                    cases h2 : asKeyStr ov with
                    | error e => simp only [h2] at h; cases h
                    | ok o =>
                      simp only [h2] at h
                      cases h
                      have hsf : sfV = OptValue.num sf := by
                        cases sfV with
                        | num q => cases h8; rfl
                        | str s => cases h8
                        | strList ks => cases h8
                        | sched f => cases h8
                      refine ⟨rfl, o, ik, x, sf, mode, ?_, ?_, ?_, ?_, ?_, rfl⟩
                      · rw [← asKeyStr_ok iv ik h4]; exact optGetE_ok opt "in" iv h3
                      · rw [← asTensorV_ok v x h6]; exact statGetE_ok st ik v h5
                      · rw [← hsf]; exact optGetE_ok opt "scale_factor" sfV h7
                      · rw [← asKeyStr_ok mV mode h10]; exact optGetE_ok opt "mode" mV h9
                      · rw [← asKeyStr_ok ov o h2]; exact optGetE_ok opt "out" ov h1

theorem keys_single (o : String) (val : Value) (outV : OptValue)
    (h : outV = OptValue.str o) (x : String) :
    x ∈ keysOf [(o, val)] ↔ keyMem outV x := by
  subst h
  simp [keysOf, keyMem]

/-- C2: for every concrete injector variant and every state on which the
injector's `forward` succeeds, the key set of the returned `new_state`
mapping is exactly the configured `out`: the singleton key when `out` is a
single string, and exactly the keys of the list when `out` is a list, with
no extras and no omissions. -/
theorem claim_C2 (inj : Injector) (env : Env)
    (st st' new : List (String × Value))
    (hwf : slookup inj.opt "out" = some inj.output)
    (h : forward inj env st = Except.ok (st', new)) :
    ∀ x, x ∈ keysOf new ↔ keyMem inj.output x := by
  obtain ⟨v, opt, inp, outV⟩ := inj
  cases v with
  | generator =>
    have h' : invokeModel env.generators "generator"
        ⟨Variant.generator, opt, inp, outV⟩ st = Except.ok (st', new) := h
    obtain ⟨-, r, hpack⟩ := invokeModel_ok env.generators "generator"
      ⟨Variant.generator, opt, inp, outV⟩ st st' new h'
    exact packOut_ok_keys _ _ _ hpack
  | discriminator =>
    have h' : invokeModel env.discriminators "discriminator"
        ⟨Variant.discriminator, opt, inp, outV⟩ st = Except.ok (st', new) := h
    obtain ⟨-, r, hpack⟩ := invokeModel_ok env.discriminators "discriminator"
      ⟨Variant.discriminator, opt, inp, outV⟩ st st' new h'
    exact packOut_ok_keys _ _ _ hpack
  | scheduledScalar sch =>
    obtain ⟨-, o, ho, hnew⟩ := schedScalar_ok sch opt inp outV env st st' new h
    subst hnew
    exact fun x => keys_single o _ outV (Option.some.inj (hwf.symm.trans ho)) x
  | imgGrad fn =>
    obtain ⟨-, o, ik, x, ho, -, -, hnew⟩ := imgGrad_ok fn opt inp outV env st st' new h
    subst hnew
    exact fun y => keys_single o _ outV (Option.some.inj (hwf.symm.trans ho)) y
  | addNoise =>
    obtain ⟨-, o, ik, x, scV, s, -, -, -, -, ho, hnew⟩ :=
      addNoise_ok opt inp outV env st st' new h
    subst hnew
    exact fun y => keys_single o _ outV (Option.some.inj (hwf.symm.trans ho)) y
  | greyscale =>
    obtain ⟨-, o, ik, x, -, -, ho, hnew⟩ := greyscale_ok opt inp outV env st st' new h
    subst hnew
    exact fun y => keys_single o _ outV (Option.some.inj (hwf.symm.trans ho)) y
  | interpolate =>
    obtain ⟨-, o, ik, x, sf, mode, -, -, -, -, ho, hnew⟩ :=
      interpolate_ok opt inp outV env st st' new h
    subst hnew
    exact fun y => keys_single o _ outV (Option.some.inj (hwf.symm.trans ho)) y

/-- C4: `forward` never mutates the input state: in the explicit
state-passing embedding, a successful call returns the input state mapping
unchanged alongside the freshly built partial mapping. -/
theorem claim_C4 (inj : Injector) (env : Env)
    (st st' new : List (String × Value))
    (h : forward inj env st = Except.ok (st', new)) : st' = st :=
  forward_state inj env st st' new h

/-- A concrete scheduled-scalar injector used to instantiate hypotheses of
the universally quantified claims. -/
def injC2 : Injector :=
  ⟨Variant.scheduledScalar (fun _ => 7),
   [("type", OptValue.str "scheduled_scalar"), ("out", OptValue.str "w")],
   none, OptValue.str "w"⟩

/-- Witness for C2 at a concrete injector, environment and state. -/
theorem claim_C2_witness :
    slookup injC2.opt "out" = some injC2.output ∧
    forward injC2 env0 st0 = Except.ok (st0, [("w", Value.scalar 7)]) ∧
    (∀ x, x ∈ keysOf [("w", Value.scalar 7)] ↔ keyMem injC2.output x) :=
  ⟨rfl, rfl, claim_C2 injC2 env0 st0 st0 [("w", Value.scalar 7)] rfl rfl⟩

/-- Witness for C4 at a concrete injector, environment and state. -/
theorem claim_C4_witness :
    forward injC2 env0 stX = Except.ok (stX, [("w", Value.scalar 7)]) ∧
    stX = stX :=
  ⟨rfl, claim_C4 injC2 env0 stX stX [("w", Value.scalar 7)] rfl⟩

/-- A concrete generator injector whose `out` is the 2-element list
`["a", "b"]`, run against the environment whose generator `g` returns a
3-element tuple. -/
def injC1 : Injector :=
  ⟨Variant.generator,
   [("type", OptValue.str "generator"), ("generator", OptValue.str "g"),
    ("in", OptValue.str "x"), ("out", OptValue.strList ["a", "b"])],
   some (OptValue.str "x"), OptValue.strList ["a", "b"]⟩

/-- An environment whose discriminator table binds `d` to the 3-tuple
model, for the discriminator-role runs. -/
def envD : Env :=
  ⟨fun _ => none, fun n => if n = "d" then some gen3 else none, 0,
   zerosLike, fun t _ _ => t, fun t => t⟩

/-- A concrete discriminator injector whose `out` is the 2-element list
`["a", "b"]`, run against the environment whose discriminator `d` returns a
3-element tuple. -/
def injC1d : Injector :=
  ⟨Variant.discriminator,
   [("type", OptValue.str "discriminator"), ("discriminator", OptValue.str "d"),
    ("in", OptValue.str "x"), ("out", OptValue.strList ["a", "b"])],
   some (OptValue.str "x"), OptValue.strList ["a", "b"]⟩

/-- C1 counterexample: with `out = ["a", "b"]` and a sub-model result of
length 3, `forward` does not fail in either model-invocation role; both the
generator and the discriminator injector succeed and write both `out` keys,
silently dropping the third result. -/
theorem claim_C1_counterexample :
    forward injC1 env0 st0 =
      Except.ok (st0, [("a", Value.scalar 1), ("b", Value.scalar 2)]) ∧
    forward injC1d envD st0 =
      Except.ok (st0, [("a", Value.scalar 1), ("b", Value.scalar 2)]) := ⟨rfl, rfl⟩

/-- C1 as amended: for a model-invocation injector in either role
(generator or discriminator) whose `out` is a list, a result that is not a
list/tuple fails the `isinstance` assertion; a list/tuple result shorter
than `out` fails with an index lookup error (and no partial mapping is
returned in either case); but a result at least as long as `out` succeeds,
writing exactly the `out` keys positionally and silently dropping any
extra results. -/
theorem claim_C1_amended (opt : List (String × OptValue)) (env : Env)
    (st : List (String × Value)) (g : String) (gen : List Value → Value)
    (inp : Option OptValue) (ks : List String) (results : Value)
    (v : Variant) (roleKey : String)
    (tbl : String → Option (List Value → Value))
    (hrole : (v = Variant.generator ∧ roleKey = "generator" ∧
        tbl = env.generators) ∨
      (v = Variant.discriminator ∧ roleKey = "discriminator" ∧
        tbl = env.discriminators))
    (hg : slookup opt roleKey = some (OptValue.str g))
    (hgen : tbl g = some gen)
    (hcall : callModel gen inp st = Except.ok results) :
    ((∀ rs, results ≠ Value.vseq rs) →
      forward ⟨v, opt, inp, OptValue.strList ks⟩ env st =
        Except.error Err.assertionError) ∧
    (∀ rs, results = Value.vseq rs → rs.length < ks.length →
      forward ⟨v, opt, inp, OptValue.strList ks⟩ env st =
        Except.error Err.indexError) ∧
    (∀ rs, results = Value.vseq rs → ks.length ≤ rs.length →
      ∃ new, forward ⟨v, opt, inp, OptValue.strList ks⟩ env st =
        Except.ok (st, new) ∧ ∀ x, x ∈ keysOf new ↔ x ∈ ks) := by
  have hbase : forward ⟨v, opt, inp, OptValue.strList ks⟩ env st =
      match packOut (OptValue.strList ks) results with
      | Except.error e => Except.error e
      | Except.ok new => Except.ok (st, new) := by
    rcases hrole with ⟨hv, hr, ht⟩ | ⟨hv, hr, ht⟩ <;>
      (subst hv; subst hr; subst ht;
       simp [forward, invokeModel, optGetE, hg, asKeyStr, hgen, hcall])
  refine ⟨?_, ?_, ?_⟩
  · intro hns
    rw [hbase]
    cases results with
    | vseq rs => exact absurd rfl (hns rs)
    | tensor t => rfl
    | scalar q => rfl
  · intro rs hrs hlen
    subst hrs
    rw [hbase]
    simp [packOut, writeOuts_short ks rs [] hlen]
  · intro rs hrs hlen
    subst hrs
    obtain ⟨d, hd⟩ := writeOuts_long ks rs [] hlen
    refine ⟨d, ?_, ?_⟩
    · rw [hbase]
      simp [packOut, hd]
    · intro x
      rw [writeOuts_ok_keys ks rs [] d hd x]
      simp [keysOf]

/-- Witness for the amended C1: the short-result branch at concrete inputs,
in both the generator and the discriminator role. -/
theorem claim_C1_amended_witness :
    slookup injC1.opt "generator" = some (OptValue.str "g") ∧
    env0.generators "g" = some gen3 ∧
    callModel gen3 (some (OptValue.str "x")) st0 =
      Except.ok (Value.vseq [Value.scalar 1, Value.scalar 2, Value.scalar 3]) ∧
    forward ⟨Variant.generator, injC1.opt, some (OptValue.str "x"),
        OptValue.strList ["a", "b", "c", "d"]⟩ env0 st0 =
      Except.error Err.indexError ∧
    slookup injC1d.opt "discriminator" = some (OptValue.str "d") ∧
    envD.discriminators "d" = some gen3 ∧
    forward ⟨Variant.discriminator, injC1d.opt, some (OptValue.str "x"),
        OptValue.strList ["a", "b", "c", "d"]⟩ envD st0 =
      Except.error Err.indexError := by
  refine ⟨rfl, rfl, rfl, ?_, rfl, rfl, ?_⟩
  · exact (claim_C1_amended injC1.opt env0 st0 "g" gen3 (some (OptValue.str "x"))
      ["a", "b", "c", "d"]
      (Value.vseq [Value.scalar 1, Value.scalar 2, Value.scalar 3])
      Variant.generator "generator" env0.generators
      (Or.inl ⟨rfl, rfl, rfl⟩) rfl rfl rfl).2.1
      [Value.scalar 1, Value.scalar 2, Value.scalar 3] rfl (by decide)
  · exact (claim_C1_amended injC1d.opt envD st0 "d" gen3 (some (OptValue.str "x"))
      ["a", "b", "c", "d"]
      (Value.vseq [Value.scalar 1, Value.scalar 2, Value.scalar 3])
      Variant.discriminator "discriminator" envD.discriminators
      (Or.inr ⟨rfl, rfl, rfl⟩) rfl rfl rfl).2.1
      [Value.scalar 1, Value.scalar 2, Value.scalar 3] rfl (by decide)

/-- C5: for the noise-injection variant, the effective scale is the state
entry named by a string-valued `scale` and the literal number otherwise;
the emitted value at `out` is `state[in] + scale * noise` for the fresh
draw `noise = randnLike state[in]`; and when the drawn noise is zero the
output tensor equals `state[in]` unchanged. -/
theorem claim_C5 (opt : List (String × OptValue)) (inp : Option OptValue)
    (outV : OptValue) (env : Env) (st : List (String × Value))
    (o ik : String) (x : Tensor4) (scV : OptValue) (s : ℚ)
    (hsc : slookup opt "scale" = some scV)
    (hres : resolveScale scV st = Except.ok s)
    (hin : slookup opt "in" = some (OptValue.str ik))
    (hx : slookup st ik = some (Value.tensor x))
    (hout : slookup opt "out" = some (OptValue.str o)) :
    forward ⟨Variant.addNoise, opt, inp, outV⟩ env st =
      Except.ok (st, [(o, Value.tensor (tadd x (tsmul s (env.randnLike x))))]) ∧
    (∀ k, scV = OptValue.str k →
      ∀ q, slookup st k = some (Value.scalar q) → s = q) ∧
    (∀ q, scV = OptValue.num q → s = q) ∧
    ((∀ i j k l, (env.randnLike x).data i j k l = 0) →
      tadd x (tsmul s (env.randnLike x)) = x) := by
  refine ⟨?_, ?_, ?_, ?_⟩
  · simp [forward, optGetE, statGetE, hsc, hres, hin, hx, hout, asKeyStr, asTensorV]
  · intro k hk q hq
    subst hk
    simp [resolveScale, statGetE, hq, asScalarQ] at hres
    exact hres.symm
  · intro q hq
    subst hq
    simp [resolveScale] at hres
    exact hres.symm
  · intro hz
    ext i j k l
    · rfl
    · rfl
    · rfl
    · rfl
    · simp [tadd, tsmul, hz]

/-- A concrete noise-injection injector (`scale` is the literal `1/2`). -/
def injC5 : Injector :=
  ⟨Variant.addNoise,
   [("type", OptValue.str "add_noise"), ("in", OptValue.str "x"),
    ("scale", OptValue.num (1/2)), ("out", OptValue.str "y")],
   some (OptValue.str "x"), OptValue.str "y"⟩

/-- Witness for C5: the concrete run with a zero draw, where the output
collapses to the input tensor. -/
theorem claim_C5_witness :
    slookup injC5.opt "scale" = some (OptValue.num (1/2)) ∧
    resolveScale (OptValue.num (1/2)) stX = Except.ok (1/2) ∧
    slookup injC5.opt "in" = some (OptValue.str "x") ∧
    slookup stX "x" = some (Value.tensor x0) ∧
    slookup injC5.opt "out" = some (OptValue.str "y") ∧
    (forward ⟨Variant.addNoise, injC5.opt, injC5.input, injC5.output⟩ env0 stX =
      Except.ok (stX,
        [("y", Value.tensor (tadd x0 (tsmul (1/2) (env0.randnLike x0))))]) ∧
     (∀ k, OptValue.num (1/2) = OptValue.str k →
       ∀ q, slookup stX k = some (Value.scalar q) → (1/2 : ℚ) = q) ∧
     (∀ q, OptValue.num (1/2) = OptValue.num q → (1/2 : ℚ) = q) ∧
     ((∀ i j k l, (env0.randnLike x0).data i j k l = 0) →
       tadd x0 (tsmul (1/2) (env0.randnLike x0)) = x0)) :=
  ⟨rfl, rfl, rfl, rfl, rfl,
   claim_C5 injC5.opt injC5.input injC5.output env0 stX "y" "x" x0
     (OptValue.num (1/2)) (1/2) rfl rfl rfl rfl rfl⟩

/-- C6: the greyscale variant emits `mean(state[in], dim=1, keepdim=True)`
repeated to 3 channels: for a 4-dimensional input of shape `(N, C, H, W)`
the output has shape `(N, 3, H, W)`, its channels are identical to one
another, and within the input's spatial bounds each pixel equals the mean
over the `C` input channels. -/
theorem claim_C6 (opt : List (String × OptValue)) (inp : Option OptValue)
    (outV : OptValue) (env : Env) (st : List (String × Value))
    (o ik : String) (x : Tensor4)
    (hin : slookup opt "in" = some (OptValue.str ik))
    (hx : slookup st ik = some (Value.tensor x))
    (hout : slookup opt "out" = some (OptValue.str o))
    (hc : 0 < x.tc) :
    forward ⟨Variant.greyscale, opt, inp, outV⟩ env st =
      Except.ok (st, [(o, Value.tensor (trepeat (meanDim1Keep x) 1 3 1 1))]) ∧
    (trepeat (meanDim1Keep x) 1 3 1 1).tn = x.tn ∧
    (trepeat (meanDim1Keep x) 1 3 1 1).tc = 3 ∧
    (trepeat (meanDim1Keep x) 1 3 1 1).th = x.th ∧
    (trepeat (meanDim1Keep x) 1 3 1 1).tw = x.tw ∧
    (∀ i j j' k l, (trepeat (meanDim1Keep x) 1 3 1 1).data i j k l =
      (trepeat (meanDim1Keep x) 1 3 1 1).data i j' k l) ∧
    (∀ i k l, i < x.tn → k < x.th → l < x.tw →
      ∀ j, (trepeat (meanDim1Keep x) 1 3 1 1).data i j k l =
        (∑ c ∈ Finset.range x.tc, x.data i c k l) / (x.tc : ℚ)) := by
  refine ⟨?_, ?_, ?_, ?_, ?_, ?_, ?_⟩
  · simp [forward, optGetE, statGetE, hin, hx, hout, asKeyStr, asTensorV]
  · simp [trepeat, meanDim1Keep]
  · rfl
  · simp [trepeat, meanDim1Keep]
  · simp [trepeat, meanDim1Keep]
  · intro i j j' k l
    rfl
  · intro i k l hi hk hl j
    simp [trepeat, meanDim1Keep, Nat.mod_eq_of_lt hi, Nat.mod_eq_of_lt hk,
      Nat.mod_eq_of_lt hl]

/-- A concrete greyscale injector. -/
def injC6 : Injector :=
  ⟨Variant.greyscale,
   [("type", OptValue.str "greyscale"), ("in", OptValue.str "x"),
    ("out", OptValue.str "grey")],
   some (OptValue.str "x"), OptValue.str "grey"⟩

/-- Witness for C6 at the concrete tensor `x0` of shape `(1, 2, 1, 1)`. -/
theorem claim_C6_witness :
    slookup injC6.opt "in" = some (OptValue.str "x") ∧
    slookup stX "x" = some (Value.tensor x0) ∧
    slookup injC6.opt "out" = some (OptValue.str "grey") ∧
    0 < x0.tc ∧
    (forward ⟨Variant.greyscale, injC6.opt, injC6.input, injC6.output⟩ env0 stX =
      Except.ok (stX, [("grey", Value.tensor (trepeat (meanDim1Keep x0) 1 3 1 1))]) ∧
     (trepeat (meanDim1Keep x0) 1 3 1 1).tn = x0.tn ∧
     (trepeat (meanDim1Keep x0) 1 3 1 1).tc = 3 ∧
     (trepeat (meanDim1Keep x0) 1 3 1 1).th = x0.th ∧
     (trepeat (meanDim1Keep x0) 1 3 1 1).tw = x0.tw ∧
     (∀ i j j' k l, (trepeat (meanDim1Keep x0) 1 3 1 1).data i j k l =
       (trepeat (meanDim1Keep x0) 1 3 1 1).data i j' k l) ∧
     (∀ i k l, i < x0.tn → k < x0.th → l < x0.tw →
       ∀ j, (trepeat (meanDim1Keep x0) 1 3 1 1).data i j k l =
         (∑ c ∈ Finset.range x0.tc, x0.data i c k l) / (x0.tc : ℚ))) :=
  ⟨rfl, rfl, rfl, by decide,
   claim_C6 injC6.opt injC6.input injC6.output env0 stX "grey" "x" x0
     rfl rfl rfl (by decide)⟩

/-- C7: the scheduled-scalar variant ignores the state entirely and is a
pure function of the environment's step counter: for any two states and any
two environments agreeing on `step`, the produced partial mappings are
identical, and each successful call returns exactly
`{out: schedule(env.step)}`. -/
theorem claim_C7 (sch : ℕ → ℚ) (opt : List (String × OptValue))
    (inp : Option OptValue) (outV : OptValue) (env1 env2 : Env)
    (st1 st2 : List (String × Value))
    (hstep : env1.step = env2.step) :
    (forward ⟨Variant.scheduledScalar sch, opt, inp, outV⟩ env1 st1).map Prod.snd =
      (forward ⟨Variant.scheduledScalar sch, opt, inp, outV⟩ env2 st2).map Prod.snd ∧
    (∀ o, slookup opt "out" = some (OptValue.str o) →
      forward ⟨Variant.scheduledScalar sch, opt, inp, outV⟩ env1 st1 =
        Except.ok (st1, [(o, Value.scalar (sch env1.step))])) := by
  constructor
  · simp only [forward]
    cases h1 : optGetE opt "out" with
    | error e => simp [h1]
    | ok ov =>
      simp only [h1]
      cases h2 : asKeyStr ov with
      | error e => simp [h2]
      | ok o => simp [h2, hstep, Except.map]
  · intro o hout
    simp [forward, optGetE, hout, asKeyStr]

/-- An environment differing from `env0` in every table and oracle but
agreeing on the step counter. -/
def envB : Env :=
  ⟨fun _ => none, fun _ => none, 0, id, fun t _ _ => t, id⟩

/-- Witness for C7: the same scheduled-scalar injector applied to two
different states under two different environments with equal step. -/
theorem claim_C7_witness :
    env0.step = envB.step ∧
    ((forward injC2 env0 st0).map Prod.snd =
      (forward injC2 envB stX).map Prod.snd ∧
     (∀ o, slookup injC2.opt "out" = some (OptValue.str o) →
       forward injC2 env0 st0 =
         Except.ok (st0, [(o, Value.scalar 7)]))) :=
  ⟨rfl, claim_C7 (fun _ => 7) injC2.opt injC2.input injC2.output env0 envB
    st0 stX rfl⟩

/-- C8: constructing an injector from a configuration lacking `out` fails
with the missing-field lookup error (`KeyError 'out'`, the construction-time
configuration failure); a configuration lacking `in` still constructs, with
the `input` attribute left unset; and when fields are present the
constructed injector stores exactly the configured `in` and `out` values. -/
theorem claim_C8 :
    (∀ opt : List (String × OptValue), slookup opt "out" = none →
      baseInit opt = Except.error (Err.keyError "out")) ∧
    (∀ (opt : List (String × OptValue)) (env : Env),
      slookup opt "type" = some (OptValue.str "generator") →
      slookup opt "out" = none →
      create_injector opt env = Except.error (Err.keyError "out")) ∧
    (∀ (opt : List (String × OptValue)) (outV : OptValue),
      slookup opt "out" = some outV →
      baseInit opt = Except.ok (slookup opt "in", outV)) ∧
    (∀ (opt : List (String × OptValue)) (env : Env) (outV : OptValue),
      slookup opt "type" = some (OptValue.str "generator") →
      slookup opt "out" = some outV →
      create_injector opt env =
        Except.ok ⟨Variant.generator, opt, slookup opt "in", outV⟩) := by
  refine ⟨?_, ?_, ?_, ?_⟩
  · intro opt h
    simp [baseInit, h]
  · intro opt env htype hout
    simp [create_injector, htype, mkInjector, baseInit, hout]
  · intro opt outV hout
    simp [baseInit, hout]
  · intro opt env outV htype hout
    simp [create_injector, htype, mkInjector, baseInit, hout]

/-- A configuration with a recognized type but no `out` field. -/
def optNoOut : List (String × OptValue) :=
  [("type", OptValue.str "generator"), ("in", OptValue.str "x")]

/-- A well-formed generator configuration without an `in` field. -/
def optNoIn : List (String × OptValue) :=
  [("type", OptValue.str "generator"), ("generator", OptValue.str "g"),
   ("out", OptValue.str "o")]

/-- Witness for C8: missing `out` fails at construction; missing `in`
constructs, storing `none` for `input` and the configured `out`. -/
theorem claim_C8_witness :
    create_injector optNoOut env0 = Except.error (Err.keyError "out") ∧
    create_injector optNoIn env0 =
      Except.ok ⟨Variant.generator, optNoIn, none, OptValue.str "o"⟩ :=
  ⟨claim_C8.2.1 optNoOut env0 rfl rfl,
   claim_C8.2.2.2 optNoIn env0 (OptValue.str "o") rfl rfl⟩

theorem gatherParams_first_missing :
    ∀ (ks1 : List String) (k : String) (ks2 : List String)
      (st : List (String × Value)),
      (∀ k', k' ∈ ks1 → ∃ v, slookup st k' = some v) → slookup st k = none →
      gatherParams st (ks1 ++ k :: ks2) = Except.error (Err.keyError k) := by
  intro ks1
  induction ks1 with
  | nil =>
    intro k ks2 st _ hk
    simp [gatherParams, statGetE, hk]
  | cons a as ih =>
    intro k ks2 st hp hk
    obtain ⟨v, hv⟩ := hp a (by simp)
    have hrest := ih k ks2 st (fun k' hk' => hp k' (by simp [hk'])) hk
    simp [gatherParams, statGetE, hv, hrest]

/-- C9: whenever a declared `in` key (or the state key named by a
string-valued `scale`) is absent from the state, `forward` fails with the
key lookup error for that key and returns no partial mapping: the
single-key and list-key reads of both the generator and the discriminator
injector, both `AddNoiseInjector` reads, and the `in` reads of the
image-gradient, greyscale and interpolate variants. -/
theorem claim_C9 :
    (∀ (opt : List (String × OptValue)) (env : Env)
       (st : List (String × Value)) (g k : String)
       (gen : List Value → Value) (outV : OptValue),
      slookup opt "generator" = some (OptValue.str g) →
      env.generators g = some gen →
      slookup st k = none →
      forward ⟨Variant.generator, opt, some (OptValue.str k), outV⟩ env st =
        Except.error (Err.keyError k)) ∧
    (∀ (opt : List (String × OptValue)) (env : Env)
       (st : List (String × Value)) (g : String) (gen : List Value → Value)
       (outV : OptValue) (ks1 : List String) (k : String) (ks2 : List String),
      slookup opt "generator" = some (OptValue.str g) →
      env.generators g = some gen →
      (∀ k', k' ∈ ks1 → ∃ v, slookup st k' = some v) →
      slookup st k = none →
      forward ⟨Variant.generator, opt,
          some (OptValue.strList (ks1 ++ k :: ks2)), outV⟩ env st =
        Except.error (Err.keyError k)) ∧
    (∀ (opt : List (String × OptValue)) (env : Env)
       (st : List (String × Value)) (d k : String)
       (dm : List Value → Value) (outV : OptValue),
      slookup opt "discriminator" = some (OptValue.str d) →
      env.discriminators d = some dm →
      slookup st k = none →
      forward ⟨Variant.discriminator, opt, some (OptValue.str k), outV⟩ env st =
        Except.error (Err.keyError k)) ∧
    (∀ (opt : List (String × OptValue)) (env : Env)
       (st : List (String × Value)) (d : String) (dm : List Value → Value)
       (outV : OptValue) (ks1 : List String) (k : String) (ks2 : List String),
      slookup opt "discriminator" = some (OptValue.str d) →
      env.discriminators d = some dm →
      (∀ k', k' ∈ ks1 → ∃ v, slookup st k' = some v) →
      slookup st k = none →
      forward ⟨Variant.discriminator, opt,
          some (OptValue.strList (ks1 ++ k :: ks2)), outV⟩ env st =
        Except.error (Err.keyError k)) ∧
    (∀ (opt : List (String × OptValue)) (env : Env)
       (st : List (String × Value)) (sk : String)
       (inp : Option OptValue) (outV : OptValue),
      slookup opt "scale" = some (OptValue.str sk) →
      slookup st sk = none →
      forward ⟨Variant.addNoise, opt, inp, outV⟩ env st =
        Except.error (Err.keyError sk)) ∧
    (∀ (opt : List (String × OptValue)) (env : Env)
       (st : List (String × Value)) (scV : OptValue) (s : ℚ) (ik : String)
       (inp : Option OptValue) (outV : OptValue),
      slookup opt "scale" = some scV →
      resolveScale scV st = Except.ok s →
      slookup opt "in" = some (OptValue.str ik) →
      slookup st ik = none →
      forward ⟨Variant.addNoise, opt, inp, outV⟩ env st =
        Except.error (Err.keyError ik)) ∧
    (∀ (opt : List (String × OptValue)) (env : Env)
       (st : List (String × Value)) (o ik : String) (fn : Tensor4 → Tensor4)
       (inp : Option OptValue) (outV : OptValue),
      slookup opt "out" = some (OptValue.str o) →
      slookup opt "in" = some (OptValue.str ik) →
      slookup st ik = none →
      forward ⟨Variant.imgGrad fn, opt, inp, outV⟩ env st =
        Except.error (Err.keyError ik)) ∧
    (∀ (opt : List (String × OptValue)) (env : Env)
       (st : List (String × Value)) (ik : String)
       (inp : Option OptValue) (outV : OptValue),
      slookup opt "in" = some (OptValue.str ik) →
      slookup st ik = none →
      forward ⟨Variant.greyscale, opt, inp, outV⟩ env st =
        Except.error (Err.keyError ik)) ∧
    (∀ (opt : List (String × OptValue)) (env : Env)
       (st : List (String × Value)) (ik : String)
       (inp : Option OptValue) (outV : OptValue),
      slookup opt "in" = some (OptValue.str ik) →
      slookup st ik = none →
      forward ⟨Variant.interpolate, opt, inp, outV⟩ env st =
        Except.error (Err.keyError ik)) := by
  refine ⟨?_, ?_, ?_, ?_, ?_, ?_, ?_, ?_, ?_⟩
  · intro opt env st g k gen outV hg hgen hk
    simp [forward, invokeModel, optGetE, hg, asKeyStr, hgen, callModel,
      statGetE, hk]
  · intro opt env st g gen outV ks1 k ks2 hg hgen hpres hk
    have hgp := gatherParams_first_missing ks1 k ks2 st hpres hk
    simp [forward, invokeModel, optGetE, hg, asKeyStr, hgen, callModel, hgp]
  · intro opt env st d k dm outV hd hdm hk
    simp [forward, invokeModel, optGetE, hd, asKeyStr, hdm, callModel,
      statGetE, hk]
  · intro opt env st d dm outV ks1 k ks2 hd hdm hpres hk
    have hgp := gatherParams_first_missing ks1 k ks2 st hpres hk
    simp [forward, invokeModel, optGetE, hd, asKeyStr, hdm, callModel, hgp]
  · intro opt env st sk inp outV hsc hk
    simp [forward, optGetE, hsc, resolveScale, statGetE, hk]
  · intro opt env st scV s ik inp outV hsc hres hin hik
    simp [forward, optGetE, hsc, hres, hin, asKeyStr, statGetE, hik]
  · intro opt env st o ik fn inp outV hout hin hik
    simp [forward, optGetE, hout, hin, asKeyStr, statGetE, hik]
  · intro opt env st ik inp outV hin hik
    simp [forward, optGetE, hin, asKeyStr, statGetE, hik]
  · intro opt env st ik inp outV hin hik
    simp [forward, optGetE, hin, asKeyStr, statGetE, hik]

/-- Witness for C9: a generator injector and a discriminator injector whose
declared `in` key is absent from the concrete state fail with exactly that
key's lookup error. -/
theorem claim_C9_witness :
    forward ⟨Variant.generator, injC1.opt, some (OptValue.str "missing"),
        OptValue.strList ["a", "b"]⟩ env0 st0 =
      Except.error (Err.keyError "missing") ∧
    forward ⟨Variant.discriminator, injC1d.opt, some (OptValue.str "missing"),
        OptValue.strList ["a", "b"]⟩ envD st0 =
      Except.error (Err.keyError "missing") :=
  ⟨claim_C9.1 injC1.opt env0 st0 "g" "missing" gen3
    (OptValue.strList ["a", "b"]) rfl rfl rfl,
   claim_C9.2.2.1 injC1d.opt envD st0 "d" "missing" gen3
    (OptValue.strList ["a", "b"]) rfl rfl rfl⟩

/-- A configuration whose `type` is the dispatched-but-undefined
`imageflow` tag. -/
def optIF : List (String × OptValue) :=
  [("type", OptValue.str "imageflow"), ("out", OptValue.str "o")]

/-- C3 counterexample: `imageflow` is a tag the factory's dispatch chain
tests for (it does not take the unrecognized-type branch), yet the factory
neither raises the unrecognized-type error nor returns a constructed
injector for it — it fails with a `NameError`, so the claim that every
recognized tag yields a constructed injector is false at this input. -/
theorem claim_C3_counterexample :
    "imageflow" ∈ dispatchTags ∧
    create_injector optIF env0 = Except.error (Err.nameError "ImageFlowInjector") ∧
    create_injector optIF env0 ≠ Except.error Err.notImplementedError ∧
    ∀ i : Injector, create_injector optIF env0 ≠ Except.ok i := by
  have hc : create_injector optIF env0 =
      Except.error (Err.nameError "ImageFlowInjector") := rfl
  refine ⟨by simp [dispatchTags], hc, ?_, ?_⟩
  · rw [hc]
    intro h
    simp at h
  · intro i
    rw [hc]
    intro h
    simp at h

/-- C3 as amended: a `type` value that is none of the eight dispatch tags
(including any non-string value) fails with `NotImplementedError` at
construction, before any `forward` runs; each of the seven tags whose class
is defined constructs the corresponding variant, given the fields its
constructor reads; but the dispatched tag `imageflow` never constructs — it
fails with `NameError` because its class is undefined. -/
theorem claim_C3_amended :
    (∀ (opt : List (String × OptValue)) (env : Env) (tv : OptValue),
      slookup opt "type" = some tv →
      (∀ s, s ∈ dispatchTags → tv ≠ OptValue.str s) →
      create_injector opt env = Except.error Err.notImplementedError) ∧
    (∀ (opt : List (String × OptValue)) (env : Env),
      slookup opt "type" = some (OptValue.str "imageflow") →
      create_injector opt env = Except.error (Err.nameError "ImageFlowInjector")) ∧
    (∀ (opt : List (String × OptValue)) (env : Env) (outV : OptValue),
      slookup opt "out" = some outV →
      ((slookup opt "type" = some (OptValue.str "generator") →
        create_injector opt env =
          Except.ok ⟨Variant.generator, opt, slookup opt "in", outV⟩) ∧
       (slookup opt "type" = some (OptValue.str "discriminator") →
        create_injector opt env =
          Except.ok ⟨Variant.discriminator, opt, slookup opt "in", outV⟩) ∧
       (∀ f, slookup opt "scheduler" = some (OptValue.sched f) →
        slookup opt "type" = some (OptValue.str "scheduled_scalar") →
        create_injector opt env =
          Except.ok ⟨Variant.scheduledScalar f, opt, slookup opt "in", outV⟩) ∧
       (slookup opt "type" = some (OptValue.str "img_grad") →
        create_injector opt env =
          Except.ok ⟨Variant.imgGrad env.gradOp, opt, slookup opt "in", outV⟩) ∧
       (slookup opt "type" = some (OptValue.str "add_noise") →
        create_injector opt env =
          Except.ok ⟨Variant.addNoise, opt, slookup opt "in", outV⟩) ∧
       (slookup opt "type" = some (OptValue.str "greyscale") →
        create_injector opt env =
          Except.ok ⟨Variant.greyscale, opt, slookup opt "in", outV⟩) ∧
       (slookup opt "type" = some (OptValue.str "interpolate") →
        create_injector opt env =
          Except.ok ⟨Variant.interpolate, opt, slookup opt "in", outV⟩))) := by
  refine ⟨?_, ?_, ?_⟩
  · intro opt env tv htv hne
    cases tv with
    | str s =>
      have hno : ∀ t, t ∈ dispatchTags → s ≠ t := by
        intro t ht hst
        exact hne t ht (by rw [hst])
      simp [create_injector, htv,
        hno "generator" (by simp [dispatchTags]),
        hno "discriminator" (by simp [dispatchTags]),
        hno "scheduled_scalar" (by simp [dispatchTags]),
        hno "img_grad" (by simp [dispatchTags]),
        hno "add_noise" (by simp [dispatchTags]),
        hno "greyscale" (by simp [dispatchTags]),
        hno "interpolate" (by simp [dispatchTags]),
        hno "imageflow" (by simp [dispatchTags])]
    | num q => simp [create_injector, htv]
    | strList ks => simp [create_injector, htv]
    | sched f => simp [create_injector, htv]
  · intro opt env htv
    simp [create_injector, htv]
  · intro opt env outV hout
    refine ⟨?_, ?_, ?_, ?_, ?_, ?_, ?_⟩
    · intro htv
      simp [create_injector, htv, mkInjector, baseInit, hout]
    · intro htv
      simp [create_injector, htv, mkInjector, baseInit, hout]
    · intro f hf htv
      simp [create_injector, htv, baseInit, hout, optGetE, hf, asSchedF]
    · intro htv
      simp [create_injector, htv, baseInit, hout]
    · intro htv
      simp [create_injector, htv, mkInjector, baseInit, hout]
    · intro htv
      simp [create_injector, htv, mkInjector, baseInit, hout]
    · intro htv
      simp [create_injector, htv, mkInjector, baseInit, hout]

/-- Witness for the amended C3: a type string outside the dispatch tags
fails with `NotImplementedError`; the `greyscale` tag constructs its
variant. -/
theorem claim_C3_witness :
    create_injector [("type", OptValue.str "nonsense"),
        ("out", OptValue.str "o")] env0 =
      Except.error Err.notImplementedError ∧
    create_injector [("type", OptValue.str "greyscale"),
        ("in", OptValue.str "x"), ("out", OptValue.str "o")] env0 =
      Except.ok ⟨Variant.greyscale,
        [("type", OptValue.str "greyscale"), ("in", OptValue.str "x"),
         ("out", OptValue.str "o")],
        some (OptValue.str "x"), OptValue.str "o"⟩ := by
  constructor
  · exact claim_C3_amended.1 [("type", OptValue.str "nonsense"),
      ("out", OptValue.str "o")] env0 (OptValue.str "nonsense") rfl
      (by intro s hs h; cases h; revert hs; decide)
  · exact (claim_C3_amended.2.2 [("type", OptValue.str "greyscale"),
      ("in", OptValue.str "x"), ("out", OptValue.str "o")] env0
      (OptValue.str "o") rfl).2.2.2.2.2.1 rfl

/-- C10: the factory's dispatch accepts the `imageflow` tag — it is in the
dispatch tag set and does not take the unrecognized-type branch — yet no
call with that tag ever yields a constructed injector, because the class it
references is undefined; meanwhile another dispatched tag does construct,
so the set of dispatched tags strictly exceeds the set of constructible
ones. -/
theorem claim_C10 :
    "imageflow" ∈ dispatchTags ∧
    (∀ (opt : List (String × OptValue)) (env : Env),
      slookup opt "type" = some (OptValue.str "imageflow") →
      create_injector opt env = Except.error (Err.nameError "ImageFlowInjector") ∧
      create_injector opt env ≠ Except.error Err.notImplementedError ∧
      ∀ i : Injector, create_injector opt env ≠ Except.ok i) ∧
    (∃ (opt : List (String × OptValue)) (i : Injector),
      slookup opt "type" = some (OptValue.str "generator") ∧
      create_injector opt env0 = Except.ok i) := by
  refine ⟨by simp [dispatchTags], ?_, ?_⟩
  · intro opt env htv
    have hc : create_injector opt env =
        Except.error (Err.nameError "ImageFlowInjector") := by
      simp [create_injector, htv]
    refine ⟨hc, ?_, ?_⟩
    · rw [hc]
      intro h
      simp at h
    · intro i
      rw [hc]
      intro h
      simp at h
  · refine ⟨optNoIn, ⟨Variant.generator, optNoIn, none, OptValue.str "o"⟩, rfl, rfl⟩

/-- Witness for C10: the imageflow conjunct applied at the concrete
configuration `optIF`. -/
theorem claim_C10_witness :
    create_injector optIF envB = Except.error (Err.nameError "ImageFlowInjector") ∧
    create_injector optIF envB ≠ Except.error Err.notImplementedError :=
  ⟨(claim_C10.2.1 optIF envB rfl).1, (claim_C10.2.1 optIF envB rfl).2.1⟩

end DLAS
